import Mathlib

/-!
# Verification of the pygrader rubric-driven grading engine

Shallow embedding of the grading core of the `pygrader` repository:

* `common/rubric.py`   — rubric loading and dependency expansion
* `common/grades.py`   — the persisted grade ledger and score computation
* `common/grader.py`   — the item-grading state machine
* `common/grading_policies.py` and `borowski_common/grading_policies.py`
  — the grading-policy chain

Python numbers (floats) are modelled as rationals (`ℚ`); Python dicts are
modelled as association lists that preserve insertion order, matching
CPython dict semantics.  Fallible code returns `Except`.
-/

namespace Pygrader

/-- Truthiness of a Python `float | None` value (`None`, `0` and `0.0` are
falsy).  Used for `rubric_item.deduct_from`. -/
def optRatTruthy : Option ℚ → Bool
  | none => false
  | some q => q != 0

/-- Truthiness of a Python `str | None` value (`None` and `""` are falsy).
Used for the `comments` field of a score entry. -/
def optStrTruthy : Option String → Bool
  | none => false
  | some s => s != ""

/-- Truthiness of a Python `bool | None` value.  Used for the `award`
field of a score entry. -/
def optBoolTruthy : Option Bool → Bool
  | none => false
  | some b => b

/-- Python `max(a, b)` on numbers.  (Definitionally unfolds through the
kernel-computable `Rat` order, unlike Mathlib's `max` whose instance
chain blocks `decide`; `pyMax_eq_max` identifies the two.) -/
def pyMax (a b : ℚ) : ℚ := if b ≤ a then a else b

/-- Python `min(a, b)` on numbers. -/
def pyMin (a b : ℚ) : ℚ := if a ≤ b then a else b

/-- Python `str.startswith`, computed on the character lists (semantically
equal to `String.startsWith`, but reducible by the kernel and `simp`). -/
def pyStartsWith (s pre : String) : Bool :=
  List.isPrefixOf pre.data s.data

/-- One entry of `grades[submitter]["scores"]`: the JSON object
`{"award": bool|null, "comments": str|null}` (`null` = ungraded). -/
structure SubGrade where
  award : Option Bool
  comments : Option String
  deriving Repr, DecidableEq

/-- The `{"award": None, "comments": None}` entry used for not-yet-graded
subitems. -/
def SubGrade.ungraded : SubGrade := { award := none, comments := none }

/-- The `scores` dict of one submitter: subitem code ↦ `SubGrade`,
as an insertion-ordered association list (CPython dict semantics). -/
abbrev Scores := List (String × SubGrade)

/-- Dict lookup `scores[code]`.  A missing key would raise `KeyError` in
Python; the embedding returns the all-`None` entry in that case (the
claims only evaluate it at keys that are present). -/
def Scores.get (s : Scores) (code : String) : SubGrade :=
  match s.lookup code with
  | some g => g
  | none => SubGrade.ungraded

/-- Dict update `scores[code] = v`: replaces the value in place if the key
is present (keeping its position, as CPython does), otherwise appends. -/
def Scores.set (s : Scores) (code : String) (v : SubGrade) : Scores :=
  match s with
  | [] => [(code, v)]
  | (c, g) :: rest =>
    if c = code then (c, v) :: rest else (c, g) :: Scores.set rest code v

/-- `Grades.is_graded` (common/grades.py): a subitem is graded iff its
`award` field is not `None`. -/
def Scores.isGraded (s : Scores) (code : String) : Bool :=
  (s.get code).award != none

/-- `RubricItem` (common/rubric.py).  `depends_on` holds *direct object
references* to other rubric items, which is why this is a nested
inductive rather than a structure: the loader only ever references
previously-constructed items, so the references form a well-founded tree. -/
inductive RubricItem where
  | mk
    (code : String)
    (deduct_from : Option ℚ)
    (subitems : List (ℚ × String))
    (hasRan : List RubricItem)
    (isGradedDeps : List RubricItem)
  deriving Repr

/-- Field accessor for `RubricItem.code`. -/
def RubricItem.code : RubricItem → String
  | .mk c _ _ _ _ => c

/-- Field accessor for `RubricItem.deduct_from`. -/
def RubricItem.deduct_from : RubricItem → Option ℚ
  | .mk _ d _ _ _ => d

/-- Field accessor for `RubricItem.subitems` (the `(pts, desc)` pairs). -/
def RubricItem.subitems : RubricItem → List (ℚ × String)
  | .mk _ _ s _ _ => s

/-- Field accessor for `depends_on["has_ran"]`. -/
def RubricItem.hasRan : RubricItem → List RubricItem
  | .mk _ _ _ h _ => h

/-- Field accessor for `depends_on["is_graded"]`. -/
def RubricItem.isGradedDeps : RubricItem → List RubricItem
  | .mk _ _ _ _ g => g

/-- A rubric: table code ↦ (item code ↦ `RubricItem`), both levels
insertion-ordered (CPython dicts). -/
abbrev Rubric := List (String × List (String × RubricItem))

/-- The subitem codes `f"{item_code}.{i}"` of one item, `i = 1..n`
(1-based, as in the Python loops `enumerate(..., 1)` /
`range(1, len(item.subitems) + 1)`). -/
def subitemCodesOf (itemCode : String) (item : RubricItem) : List String :=
  (List.range item.subitems.length).map
    (fun i => itemCode ++ "." ++ toString (i + 1))

/-- `all(self.is_graded(f"{item_code}.{si}", name) for si, _ in
enumerate(rubric_item.subitems, 1))` from `_get_submission_grades`. -/
def allSubitemsGraded (scores : Scores) (itemCode : String)
    (item : RubricItem) : Bool :=
  (subitemCodesOf itemCode item).all (fun c => scores.isGraded c)

/-- Rendering of a Python number in an f-string: integral values print
without a fractional part.  Only used inside comment strings; no claim
depends on the exact digits. -/
def ratPyStr (q : ℚ) : String :=
  if q.den = 1 then toString q.num else toString q

/-- The flattened item sequence of the nested loop
`for _, rubric_item_mappings in self.rubric.items(): for item_code,
rubric_item in rubric_item_mappings.items():`. -/
def itemsSeq (r : Rubric) : List (String × RubricItem) :=
  r.flatMap (fun p => p.2)

/-- The body of the `for i, (pts, _) in enumerate(rubric_item.subitems, 1)`
loop of `Grades._get_submission_grades` (common/grades.py:208-238):
accumulates awarded points and assembles the per-subitem comment
annotation. -/
def subitemStep (scores : Scores) (itemCode : String) (nSubitems : Nat)
    (acc : ℚ × List String) (ie : Nat × (ℚ × String)) : ℚ × List String :=
  let total := acc.1
  let cs := acc.2
  let i := ie.1
  let pts := ie.2.1
  let code := itemCode ++ "." ++ toString i
  let applied := optBoolTruthy (scores.get code).award
  let rawPts := if applied then pts else 0
  let total := total + rawPts
  let taComments := (scores.get code).comments
  let taTruthy := optStrTruthy taComments
  let itemComments :=
    if ((applied && decide (pts < 0)) || (!applied && decide (pts > 0)))
        || taTruthy then
      let prettyCodeName := if nSubitems = 1 then itemCode else code
      let pp := ratPyStr (if pts > 0 then pts else |pts|)
      if (decide (pts ≥ 0) == applied) && taTruthy then
        s!"({prettyCodeName})"
      else
        s!"({prettyCodeName}: -{pp})"
    else ""
  let itemComments :=
    if taTruthy then itemComments ++ " " ++ taComments.getD ""
    else itemComments
  let cs := if itemComments ≠ "" then cs ++ [itemComments] else cs
  (total, cs)

/-- Processing of one rubric item inside `Grades._get_submission_grades`
(common/grades.py:201-243): the deductive upfront increment, the subitem
loop, and the final clamp `total_pts = max(floor_pts, min(floor_pts +
deduct_from, total_pts))`.  `if rubric_item.deduct_from:` is Python
truthiness, so `deduct_from` equal to `None` **or `0`** takes the
additive path. -/
def processItem (scores : Scores) (itemCode : String) (item : RubricItem)
    (total : ℚ) (comments : List String) : ℚ × List String :=
  let deductive := optRatTruthy item.deduct_from
  let d := item.deduct_from.getD 0
  let floorPts := total
  let total := if deductive then total + d else total
  let res := (List.enumFrom 1 item.subitems).foldl
    (subitemStep scores itemCode item.subitems.length) (total, comments)
  let total := res.1
  let total := if deductive then pyMax floorPts (pyMin (floorPts + d) total)
    else total
  (total, res.2)

/-- The main loop of `Grades._get_submission_grades`
(common/grades.py:190-243): items not matching the table filter are
skipped; the first in-scope item with an ungraded subitem triggers the
early `return False, total_pts, ...`; otherwise the item is scored. -/
def walkItems (scores : Scores) (rubricCode : String) :
    List (String × RubricItem) → ℚ → List String → Bool × ℚ × List String
  | [], total, cs => (true, total, cs)
  | (itemCode, item) :: rest, total, cs =>
    if rubricCode != "ALL" && !(pyStartsWith itemCode rubricCode) then
      walkItems scores rubricCode rest total cs
    else if !(allSubitemsGraded scores itemCode item) then
      (false, total, cs)
    else
      let tc := processItem scores itemCode item total cs
      walkItems scores rubricCode rest tc.1 tc.2

/-- The raw (policy-free) running total computed by the item loop of
`Grades._get_submission_grades` for a given filter. -/
def rawWalkTotal (scores : Scores) (rubric : Rubric)
    (rubricCode : String) : ℚ :=
  (walkItems scores rubricCode (itemsSeq rubric) 0 []).2.1

/-- Result of `Grades._get_submission_grades`.  `policyCalls` counts how
many times `self.grading_policy.get_points_and_comments` was invoked on
the way to this result (it is 0 or 1 by construction; the claims are
about which). -/
structure SubmissionGrades where
  complete : Bool
  pts : ℚ
  line : String
  policyCalls : Nat
  deriving Repr, DecidableEq

/-- `Grades._get_submission_grades` (common/grades.py:166-257), with the
grading policy `self.grading_policy.get_points_and_comments` and the
stored `self._grades[name]["grading_policy"]` blob passed explicitly.
After the loop: the policy chain is applied only when
`rubric_code == "ALL"`; comments are joined with `"; "`; and
`total_pts = max(total_pts, 0)` is applied on the completed path.  The
incomplete early return (line 199) yields the partial running total. -/
def getSubmissionGrades {α : Type} (policy : ℚ → List String → α → ℚ × List String)
    (policyData : α) (scores : Scores) (rubric : Rubric) (name : String)
    (rubricCode : String) : SubmissionGrades :=
  let w := walkItems scores rubricCode (itemsSeq rubric) 0 []
  if w.1 then
    if rubricCode == "ALL" then
      let pc := policy w.2.1 w.2.2 policyData
      let joined := String.intercalate "; " pc.2
      let t := pyMax pc.1 0
      { complete := true, pts := t,
        line := name ++ "\t" ++ ratPyStr t ++ "\t" ++ joined,
        policyCalls := 1 }
    else
      let joined := String.intercalate "; " w.2.2
      let t := pyMax w.2.1 0
      { complete := true, pts := t,
        line := name ++ "\t" ++ ratPyStr t ++ "\t" ++ joined,
        policyCalls := 0 }
  else
    { complete := false, pts := w.2.1, line := name ++ "\tn/a\tn/a",
      policyCalls := 0 }

/-- `NullGradingPolicy.get_points_and_comments`
(common/grading_policies.py:45-54): the identity transform; the policy
data argument is ignored. -/
def nullGradingPolicy {α : Type} (totalPts : ℚ) (allComments : List String)
    (_ : α) : ℚ × List String :=
  (totalPts, allComments)

/-- `Σ(subitem points where awarded else 0)` over `subitems`, with
1-based subitem codes starting at `i` — the points accumulated by the
subitem loop of `_get_submission_grades`. -/
def awardedSumFrom (scores : Scores) (itemCode : String) :
    Nat → List (ℚ × String) → ℚ
  | _, [] => 0
  | i, p :: rest =>
    (if optBoolTruthy (scores.get (itemCode ++ "." ++ toString i)).award
      then p.1 else 0)
      + awardedSumFrom scores itemCode (i + 1) rest

/-- The sum of awarded subitem points of an item (subitem codes
`itemCode.1`, `itemCode.2`, …). -/
def awardedSum (scores : Scores) (itemCode : String) (item : RubricItem) : ℚ :=
  awardedSumFrom scores itemCode 1 item.subitems

/-- The spec scenario item B1: deductive with `deduct_from = 10` and one
subitem `(-3, "penalty")`. -/
def b1Item : RubricItem := RubricItem.mk "B1" (some 10) [(-3, "penalty")] [] []

/-- One-table rubric holding only `b1Item`. -/
def b1DemoRubric : Rubric := [("B", [("B1", b1Item)])]

/-- Ledger scores with B1.1 awarded `false` (test passed, no penalty). -/
def b1ScoresNoPenalty : Scores :=
  [("B1.1", { award := some false, comments := some "" })]

/-- Ledger scores with B1.1 awarded `true` (penalty applied). -/
def b1ScoresPenalty : Scores :=
  [("B1.1", { award := some true, comments := some "" })]

/-- A rubric item with `deduct_from` *present but zero*: Python
`if rubric_item.deduct_from:` is falsy on `0`, so the code scores it
additively. -/
def zeroDeductItem : RubricItem := RubricItem.mk "A1" (some 0) [(5, "desc")] [] []

/-- One-table rubric holding only `zeroDeductItem`. -/
def zeroDeductRubric : Rubric := [("A", [("A1", zeroDeductItem)])]

/-- Scores with A1.1 awarded. -/
def zeroDeductScores : Scores :=
  [("A1.1", { award := some true, comments := some "" })]

/-- An item is in scope for a table filter when the filter is `"ALL"` or
the item code starts with the filter (the negation of the `continue`
guard at common/grades.py:192). -/
def inScope (rubricCode itemCode : String) : Bool :=
  rubricCode == "ALL" || pyStartsWith itemCode rubricCode

/-- An additive rubric item with a *negative* subitem. -/
def negSubitemItem : RubricItem := RubricItem.mk "A1" none [(-3, "x")] [] []

/-- One-table rubric holding only `negSubitemItem`. -/
def negSubitemRubric : Rubric := [("A", [("A1", negSubitemItem)])]

/-- Scores with A1.1 awarded (so its −3 counts). -/
def negSubitemScores : Scores :=
  [("A1.1", { award := some true, comments := some "" })]

/-- Scores with A1.1 still ungraded. -/
def negSubitemUngraded : Scores := [("A1.1", SubGrade.ungraded)]

/-- Python `round(x, 2)` (banker's rounding to two decimals), as used by
`LatePercentagePenaltyPolicy`.  (CPython rounds the binary float nearest
to `x`; on our exact rationals that collapses to half-to-even.  No claim
depends on the tie behaviour — only on determinism.) -/
def pyRound2 (q : ℚ) : ℚ :=
  let m := q * 100
  let n : ℤ := ⌊m⌋
  let f : ℚ := m - n
  let r : ℤ :=
    if f < 1/2 then n
    else if 1/2 < f then n + 1
    else if n % 2 = 0 then n else n + 1
  (r : ℚ) / 100

/-- `LatePercentagePenaltyPolicy.get_points_and_comments`
(common/grading_policies.py:26-42).  `policy_data` is used only for its
truthiness (`if policy_data:`), modelled as a `Bool`. -/
def latePercentagePenaltyPolicy (percentagePenalty : ℚ) (totalPts : ℚ)
    (allComments : List String) (policyData : Bool) : ℚ × List String :=
  if policyData then
    (pyRound2 (totalPts * (1 - percentagePenalty)), "(LATE)" :: allComments)
  else
    (totalPts, allComments)

/-- `GOOD_JOB_PHRASES` (borowski_common/grading_policies.py:19). -/
def GOOD_JOB_PHRASES : List String :=
  ["Good job", "Great work", "Nice job", "Well done", "Awesome"]

/-- The `policy_data` dict consumed by `GoodJobPolicy`: presence of the
`"student_names"` and `"ta_name"` keys. -/
structure GoodJobData where
  studentNames : Option (List String)
  taName : Option String
  deriving Repr, DecidableEq

/-- `GoodJobPolicy._list_of_items_to_grammatical_text`
(borowski_common/grading_policies.py:64-81). -/
def listOfItemsToGrammaticalText (items : List String) : String :=
  match items with
  | [] => ""
  | [a] => a
  | [a, b] => a ++ " and " ++ b
  | _ => String.intercalate ", " items.dropLast ++ ", and "
      ++ (items.getLast?.getD "")

/-- `GoodJobPolicy.get_points_and_comments`
(borowski_common/grading_policies.py:31-62).  The phrase drawn by
`random.choice(GOOD_JOB_PHRASES)` is an *input of the embedding*
(`phrase`): the Python function's output depends on the random draw, so
it is not a function of `(total_pts, all_comments, policy_data)` alone. -/
def goodJobPolicy (phrase : String) (totalPts : ℚ)
    (allComments : List String) (pd : GoodJobData) : ℚ × List String :=
  let newComments := allComments
  let newComments :=
    if totalPts ≥ 93 then
      let newComment := phrase
      let newComment :=
        match pd.studentNames with
        | some names =>
          let firstNames := names.map (fun n => (n.splitOn " ").headD "")
          newComment ++ ", " ++ listOfItemsToGrammaticalText firstNames
        | none => newComment
      newComments ++ [newComment ++ "!"]
    else newComments
  let newComments :=
    match pd.taName with
    | some taName => newComments ++ ["Graded by " ++ taName]
    | none => newComments
  (totalPts, newComments)

/-- `PlagiarismPolicy.get_points_and_comments`
(borowski_common/grading_policies.py:93-114): `policy_data` is a dict of
plagiarism matches; nonempty (truthy) zeroes the score and prepends the
flag-and-link message. -/
def plagiarismPolicy (totalPts : ℚ) (allComments : List String)
    (pd : List (String × String)) : ℚ × List String :=
  if pd.isEmpty then (totalPts, allComments)
  else
    let ms := String.intercalate ", " (pd.map (fun p => p.2))
    (0,
      ("Your submission has been flagged for plagiarism. If you wish to escalate the matter to the deans, please make a private post on Ed. Otherwise, no further action is required. You may view your report(s) here: "
        ++ ms) :: allComments)

/-- `CustomDeductionsPolicy.get_points_and_comments`
(borowski_common/grading_policies.py:295-318): applies the ordered
deduction entries, floors the total at 0 (`max(0, total_pts)`), and
prepends the generated comments. -/
def customDeductionsPolicy (totalPts : ℚ) (allComments : List String)
    (pd : List (ℚ × String)) : ℚ × List String :=
  let res := pd.foldl
    (fun (acc : ℚ × List String) d =>
      let ds := ratPyStr d.1
      (acc.1 + d.1, acc.2 ++ ["(" ++ ds ++ ") " ++ d.2]))
    (totalPts, [])
  (pyMax 0 res.1, res.2 ++ allComments)

/-- The per-policy blobs stored under `grades[name]["grading_policy"]`,
keyed by policy class name. -/
inductive PolicyData where
  | late (truthy : Bool)
  | goodJob (d : GoodJobData)
  | plagiarism (ms : List (String × String))
  | deductions (entries : List (ℚ × String))
  deriving Repr, DecidableEq

/-- `LatePercentagePenaltyPolicy` as a chain entry.  (A blob of the wrong
variant would be a `TypeError` in Python; the embedding leaves the input
unchanged in that unreachable case.) -/
def latePolicyFn (p : ℚ) (t : ℚ) (cs : List String) (pd : PolicyData) :
    ℚ × List String :=
  match pd with
  | .late b => latePercentagePenaltyPolicy p t cs b
  | _ => (t, cs)

/-- `GoodJobPolicy` as a chain entry (random phrase passed explicitly). -/
def goodJobPolicyFn (phrase : String) (t : ℚ) (cs : List String)
    (pd : PolicyData) : ℚ × List String :=
  match pd with
  | .goodJob d => goodJobPolicy phrase t cs d
  | _ => (t, cs)

/-- `PlagiarismPolicy` as a chain entry. -/
def plagiarismPolicyFn (t : ℚ) (cs : List String) (pd : PolicyData) :
    ℚ × List String :=
  match pd with
  | .plagiarism m => plagiarismPolicy t cs m
  | _ => (t, cs)

/-- `CustomDeductionsPolicy` as a chain entry. -/
def customDeductionsPolicyFn (t : ℚ) (cs : List String) (pd : PolicyData) :
    ℚ × List String :=
  match pd with
  | .deductions e => customDeductionsPolicy t cs e
  | _ => (t, cs)

/-- `CompositeGradingPolicy.get_points_and_comments`
(common/grading_policies.py:69-82): applies constituent policies in the
chain's fixed construction order, skipping those whose key
(`type(policy).__name__`) is absent from `policy_data`. -/
def compositeGetPointsAndComments
    (policies : List (String × (ℚ → List String → PolicyData → ℚ × List String)))
    (totalPts : ℚ) (allComments : List String)
    (policyData : List (String × PolicyData)) : ℚ × List String :=
  policies.foldl
    (fun acc p =>
      match policyData.lookup p.1 with
      | none => acc
      | some d => p.2 acc.1 acc.2 d)
    (totalPts, allComments)

/-- A representative composite chain over the repository's policies, with
`GoodJobPolicy`'s random phrase threaded explicitly. -/
def borowskiChain (phrase : String) :
    List (String × (ℚ → List String → PolicyData → ℚ × List String)) :=
  [("LatePercentagePenaltyPolicy", latePolicyFn 0.2),
   ("GoodJobPolicy", goodJobPolicyFn phrase),
   ("PlagiarismPolicy", plagiarismPolicyFn),
   ("CustomDeductionsPolicy", customDeductionsPolicyFn)]

/-- One item of the declarative rubric JSON
(`{name, points_per_subitem[], desc_per_subitem[], deducting_from?,
depends_on?}`).  `item_dict.get("deducting_from", None)` and the
`depends_on.get(..., [])` defaults are folded into the field types. -/
structure ItemSrc where
  name : String
  deducting_from : Option ℚ
  points_per_subitem : List ℚ
  desc_per_subitem : List String
  has_ran : List String
  is_graded : List String

/-- The parsed rubric JSON document: table key ↦ (item key ↦ `ItemSrc`),
in document order (JSON object keys are assumed unique, as `json.load`
silently deduplicates them). -/
abbrev RubricSrc := List (String × List (String × ItemSrc))

/-- Python `str.isalpha` (empty string is falsy). -/
def pyIsAlpha (s : String) : Bool :=
  s != "" && s.data.all Char.isAlpha

/-- `Rubric._create_dependencies_list` (common/rubric.py:143-174),
resolving one reference list against the rubric dict `rub` *as built so
far*.  `key[0]` on the empty string would raise `IndexError` in Python;
the embedding takes the empty table key, which likewise fails the
lookup. -/
def expandRef (rub : Rubric) (key : String) :
    Except String (List RubricItem) :=
  if key = "ALL" then
    Except.ok ((itemsSeq rub).map (fun p => p.2))
  else if pyIsAlpha key then
    match rub.lookup key with
    | none => Except.error ("Rubric table " ++ key ++ " not found.")
    | some tbl => Except.ok (tbl.map (fun p => p.2))
  else
    let table := String.mk (key.data.take 1)
    match rub.lookup table with
    | none => Except.error ("Rubric item " ++ key ++ " not found.")
    | some tbl =>
      match tbl.lookup key with
      | none => Except.error ("Rubric item " ++ key ++ " not found.")
      | some item => Except.ok [item]

/-- The accumulation loop of `_create_dependencies_list`: each key's
expansion is appended in order. -/
def createDependenciesList (rub : Rubric) :
    List String → Except String (List RubricItem)
  | [] => .ok []
  | key :: rest => do
    let expanded ← expandRef rub key
    let restItems ← createDependenciesList rub rest
    Except.ok (expanded ++ restItems)

/-- `Rubric._create_rubric_item` (common/rubric.py:113-141): the subitem
list is `list(zip(points_per_subitem, desc_per_subitem))` — `zip`
silently truncates to the shorter array; no length check exists. -/
def createRubricItem (rub : Rubric) (src : ItemSrc) :
    Except String RubricItem := do
  let hasRanDeps ← createDependenciesList rub src.has_ran
  let isGradedDeps ← createDependenciesList rub src.is_graded
  Except.ok (RubricItem.mk src.name src.deducting_from
    (src.points_per_subitem.zip src.desc_per_subitem) hasRanDeps isGradedDeps)

/-- Append an item into an existing table of the rubric under
construction (`self._rubric[table_k][item] = ...`). -/
def rubricAddItem (r : Rubric) (tableK itemK : String) (it : RubricItem) :
    Rubric :=
  r.map (fun p => if p.1 = tableK then (p.1, p.2 ++ [(itemK, it)]) else p)

/-- The inner item loop of `Rubric.__init__` (common/rubric.py:110-111):
each item is created against the rubric accumulated *so far* (including
the earlier items of the current table), then inserted. -/
def loadItems (tableK : String) :
    List (String × ItemSrc) → Rubric → Except String Rubric
  | [], acc => .ok acc
  | (itemK, src) :: rest, acc => do
    let it ← createRubricItem acc src
    loadItems tableK rest (rubricAddItem acc tableK itemK it)

/-- The table loop of `Rubric.__init__` (common/rubric.py:102-111): the
reserved `late_penalty` key is skipped; a fresh empty table dict is
inserted before its items are created. -/
def loadRubricAux : RubricSrc → Rubric → Except String Rubric
  | [], acc => .ok acc
  | (tableK, items) :: rest, acc =>
    if tableK = "late_penalty" then loadRubricAux rest acc
    else do
      let acc2 ← loadItems tableK items (acc ++ [(tableK, [])])
      loadRubricAux rest acc2

/-- `Rubric.__init__` on a parsed rubric document. -/
def loadRubric (src : RubricSrc) : Except String Rubric :=
  loadRubricAux src []

/-- Lexicographic code-point comparison on character lists (the order
Python `sorted` uses on strings; kernel-reducible, unlike `String.le`). -/
def charListLe : List Char → List Char → Bool
  | [], _ => true
  | _ :: _, [] => false
  | a :: as, b :: bs =>
    if a.toNat < b.toNat then true
    else if b.toNat < a.toNat then false
    else charListLe as bs

/-- Python `<=` on strings. -/
def pyStrLe (a b : String) : Bool := charListLe a.data b.data

/-- Stable insertion sort by `pyStrLe`, modelling Python `sorted` on
strings (both are lexicographic by code point). -/
def insertSorted (x : String) : List String → List String
  | [] => [x]
  | y :: rest => if pyStrLe x y then x :: y :: rest else y :: insertSorted x rest

/-- Python `sorted` on a list of strings. -/
def sortStrs (l : List String) : List String :=
  l.foldr insertSorted []

/-- The subitem-code traversal of `Grades._get_defined_rubric_subitems`
(common/grades.py:77-89): sorted table keys, sorted item keys within
each table, subitem indices 1…n. -/
def subitemCodesSorted (r : Rubric) : List String :=
  (sortStrs (r.map Prod.fst)).flatMap (fun tk =>
    match r.lookup tk with
    | none => []
    | some tbl =>
      (sortStrs (tbl.map Prod.fst)).flatMap (fun ik =>
        match tbl.lookup ik with
        | none => []
        | some item => subitemCodesOf ik item))

/-- The duplicate check of `_get_defined_rubric_subitems`: walk the codes
keeping the `subitems` set seen so far; the first repeat triggers
`sys.exit(f"Rubric subitem '{code}' defined twice!")` (the embedding
drops the quote characters around the code). -/
def checkSubitemCodes : List String → List String → Except String (List String)
  | [], seen => .ok seen
  | c :: rest, seen =>
    if seen.contains c then
      .error ("Rubric subitem " ++ c ++ " defined twice!")
    else
      checkSubitemCodes rest (c :: seen)

/-- `Grades._get_defined_rubric_subitems` (common/grades.py:77-89):
the traversed code set, or the duplicate-code fatal error. -/
def getDefinedRubricSubitems (r : Rubric) : Except String (List String) :=
  (checkSubitemCodes (subitemCodesSorted r) []).map
    (fun _ => subitemCodesSorted r)

/-- One submitter's stored ledger entry: the `scores` dict plus the
optional `grading_policy` blob. -/
structure StoredSubmission where
  scores : Scores
  gradingPolicy : Option (List (String × PolicyData))
  deriving Repr, DecidableEq

/-- The parsed grades JSON: submitter ↦ `StoredSubmission`. -/
abbrev GradesDict := List (String × StoredSubmission)

/-- The reconciliation loop of `Grades._load_grades`
(common/grades.py:60-75): codes absent from the rubric are popped, codes
missing from the stored entry are inserted as ungraded.  (Python
iterates the symmetric difference in unspecified set order; since
`synchronize` dumps with `sort_keys=True`, the embedding's order —
stored order for retained codes, rubric-traversal order for inserted
ones — is observationally equivalent.) -/
def reconcileScores (defined : List String) (sc : Scores) : Scores :=
  sc.filter (fun p => defined.contains p.1)
    ++ (defined.filter
          (fun c => !((sc.map Prod.fst).contains c))).map
        (fun c => (c, SubGrade.ungraded))

/-- `Grades._load_grades` (common/grades.py:51-75): a missing grades file
yields the empty dict *without* running the duplicate-code check; an
existing file (even an empty `{}`) computes `defined_subitems` first and
then reconciles every stored entry. -/
def loadGrades (fileContents : Option GradesDict) (r : Rubric) :
    Except String GradesDict :=
  match fileContents with
  | none => .ok []
  | some g => do
    let defined ← getDefinedRubricSubitems r
    Except.ok (g.map (fun p =>
      (p.1, { p.2 with scores := reconcileScores defined p.2.scores })))

/-- `Grades._add_submission_entry`'s all-ungraded scores dict
(common/grades.py:91-102; same sorted traversal as
`_get_defined_rubric_subitems`, duplicate codes silently collapse in the
Python dict and map to equal entries here). -/
def allUngradedScores (r : Rubric) : Scores :=
  (subitemCodesSorted r).map (fun c => (c, SubGrade.ungraded))

/-- Result of constructing `Grades`: the in-memory dict and the list of
`synchronize` write payloads performed, in order. -/
structure GradesInitResult where
  grades : GradesDict
  writes : List GradesDict
  deriving Repr, DecidableEq

/-- `Grades.__init__` (common/grades.py:33-49): load (with reconciliation
and duplicate check when the file exists), insert an all-ungraded entry
for a truthy submitter not yet present, then `synchronize()`
unconditionally — every successful construction writes the file exactly
once. -/
def gradesInit (fileContents : Option GradesDict) (r : Rubric)
    (name : String) : Except String GradesInitResult := do
  let g ← loadGrades fileContents r
  let g :=
    if name ≠ "" && !((g.map Prod.fst).contains name) then
      g ++ [(name, { scores := allUngradedScores r, gradingPolicy := none })]
    else g
  Except.ok { grades := g, writes := [g] }

/-- Rubric source: table A item A1 declares `has_ran: ["ALL"]`; table B
item B1 follows. -/
def c6A1Src : ItemSrc := ⟨"A1", none, [1], ["d"], ["ALL"], []⟩

/-- Rubric source item B1 with no dependencies. -/
def c6B1Src : ItemSrc := ⟨"B1", none, [1], ["d"], [], []⟩

/-- Two-table source whose first item references `"ALL"`. -/
def c6AllSrc : RubricSrc := [("A", [("A1", c6A1Src)]), ("B", [("B1", c6B1Src)])]

/-- Two-table source whose first item references the *later* item B1. -/
def c6ForwardSrc : RubricSrc :=
  [("A", [("A1", { c6A1Src with has_ran := ["B1"] })]),
   ("B", [("B1", c6B1Src)])]

/-- What loading `c6AllSrc` produces for A1: the `"ALL"` reference
expanded against the rubric built so far — which held no item yet. -/
def c6A1Item : RubricItem := RubricItem.mk "A1" none [(1, "d")] [] []

/-- What loading `c6AllSrc` produces for B1. -/
def c6B1Item : RubricItem := RubricItem.mk "B1" none [(1, "d")] [] []

/-- The rubric `loadRubric c6AllSrc` actually produces. -/
def c6AllExpected : Rubric :=
  [("A", [("A1", c6A1Item)]), ("B", [("B1", c6B1Item)])]

/-- An item source with mismatched array lengths: two point values, one
description. -/
def c8SrcItem : ItemSrc := ⟨"A1", none, [1, 2], ["a"], [], []⟩

/-- Source document holding only `c8SrcItem`. -/
def c8Src : RubricSrc := [("A", [("A1", c8SrcItem)])]

/-- The rubric `loadRubric c8Src` actually produces: the item exists,
with its subitems silently truncated by `zip` to the shorter array. -/
def c8Expected : Rubric :=
  [("A", [("A1", RubricItem.mk "A1" none [(1, "a")] [] [])])]

/-- An item keyed `"B1"`; placing it in two different tables makes the
subitem code `B1.1` appear twice in the traversal. -/
def dupItem : RubricItem := RubricItem.mk "B1" none [(1, "d")] [] []

/-- A rubric in which the subitem code `B1.1` is defined twice (item key
`B1` present in both tables). -/
def dupRubric : Rubric := [("A", [("B1", dupItem)]), ("B", [("B1", dupItem)])]

/-- The ledger entry `Grades.__init__` creates for submitter `abc` on
`dupRubric` when no grades file exists (the duplicate code collapses to
one key in the Python dict; the model's duplicate assoc entries carry
the same value and are lookup-equivalent). -/
def c7Entry : StoredSubmission :=
  { scores := [("B1.1", SubGrade.ungraded), ("B1.1", SubGrade.ungraded)],
    gradingPolicy := none }

/-- The dict `gradesInit` produces (and writes) in the C7 counterexample. -/
def c7ExpectedDict : GradesDict := [("abc", c7Entry)]

/-- Operator keystroke at the `_run_and_prompt` decision prompt. -/
inductive Action where
  | again
  | shell
  | nextItem
  | nextSub
  | enter
  deriving Repr, DecidableEq

/-- Outcome of one invocation of an item's test callback:
`True | list[(award, comment)] | None`, or a raised exception. -/
inductive TestOutcome where
  | allPass
  | auto (l : List (String × String))
  | manual
  | exn (msg : String)
  deriving Repr, DecidableEq

/-- The `autogrades` value of `_grade_item` when not `None`. -/
inductive AutoRes where
  | allPass
  | auto (l : List (String × String))
  deriving Repr, DecidableEq

/-- Observable events of a grading session: a test callback executing, an
interactive per-subitem grading prompt, a `grades.synchronize()` write. -/
inductive Event where
  | testRun (code : String)
  | manualPrompt (code : String)
  | sync
  deriving Repr, DecidableEq

/-- The `Grader.env` flags (argparse): `test_only` (-t), `regrade`,
`grade_only` (-g), `autograde_only`, and the truthiness of
`env["submitter"]` (which disables the "next submission" option). -/
structure Env where
  testOnly : Bool
  regrade : Bool
  gradeOnly : Bool
  autogradeOnly : Bool
  singleSubmitter : Bool
  deriving Repr, DecidableEq

/-- Grading-session state: the current submitter's scores dict, the
hw_tester's `ran_rubric_item_codes`, the two advance flags, the operator
input streams, and the observable event trace. -/
structure SessionState where
  scores : Scores
  ranCodes : List String
  nextItemFlag : Bool
  nextStudentFlag : Bool
  actions : List Action
  manualInputs : List (Bool × String)
  trace : List Event
  deriving Repr, DecidableEq

/-- `test_wrapper` of `RubricItem.get_test` (common/rubric.py:46-71): if
any `is_graded` dependency has an ungraded subitem, warn and return
`None` — the test does *not* execute and is *not* marked ran.  Otherwise
the test callback runs and the item code is added to
`ran_rubric_item_codes`; a raised exception leaves the ran-set
unchanged (the `add` on common/rubric.py:66-67 is not reached). -/
def runTest (tests : String → TestOutcome) (item : RubricItem)
    (st : SessionState) : TestOutcome × SessionState :=
  let ungraded := item.isGradedDeps.any (fun dep =>
    (subitemCodesOf dep.code dep).any (fun c => !(st.scores.isGraded c)))
  if ungraded then
    (.manual, st)
  else
    match tests item.code with
    | .exn m => (.exn m, { st with trace := st.trace ++ [.testRun item.code] })
    | out =>
      (out,
        { st with
          ranCodes :=
            if st.ranCodes.contains item.code then st.ranCodes
            else st.ranCodes ++ [item.code],
          trace := st.trace ++ [.testRun item.code] })

/-- The `while True` decision loop of `Grader._run_and_prompt`
(common/grader.py:216-251): each iteration re-invokes the test wrapper;
a `True`/list result breaks immediately; on `None` the operator chooses
to run again (`a`/`s`), advance (`ni`, and `ns` when grading a batch),
or continue.  An exhausted keystroke list reads as "continue" (Python
would block on `input()`).  A test exception escapes the loop and is
caught by `_grade_item`'s `try`, leaving `autogrades = None`. -/
def runLoop (env : Env) (tests : String → TestOutcome) (item : RubricItem) :
    List Action → SessionState → Option AutoRes × SessionState
  | acts, st =>
    match runTest tests item st with
    | (.allPass, st) => (some .allPass, { st with actions := acts })
    | (.auto l, st) => (some (.auto l), { st with actions := acts })
    | (.exn _, st) => (none, { st with actions := acts })
    | (.manual, st) =>
      match acts with
      | [] => (none, { st with actions := [] })
      | a :: rest =>
        match a with
        | .again => runLoop env tests item rest st
        | .shell => runLoop env tests item rest st
        | .nextSub =>
          let flag := if !env.singleSubmitter then true else st.nextStudentFlag
          (none, { st with actions := rest, nextStudentFlag := flag })
        | .nextItem => (none, { st with actions := rest, nextItemFlag := true })
        | .enter => (none, { st with actions := rest })

/-- `Grader._run_and_prompt` (common/grader.py:207-251): with
`autograde_only` the wrapper runs exactly once with no prompt; otherwise
the decision loop runs.  The returned value is the `autogrades` nonlocal
of `_grade_item`. -/
def runAndPrompt (env : Env) (tests : String → TestOutcome)
    (item : RubricItem) (st : SessionState) :
    Option AutoRes × SessionState :=
  if env.autogradeOnly then
    match runTest tests item st with
    | (.allPass, st) => (some .allPass, st)
    | (.auto l, st) => (some (.auto l), st)
    | (_, st) => (none, st)
  else
    runLoop env tests item st.actions st

/-- The interactive per-subitem loop of `Grader._prompt_grade`
(common/grader.py:280-305): awards and comments come from the operator
input stream (`comments.strip()` modelled by `String.trim`; an
exhausted stream reads as `(n, "")` — Python would block). -/
def manualGradeLoop (itemCode : String) :
    Nat → List (ℚ × String) → SessionState → SessionState
  | _, [], st => st
  | i, _ :: rest, st =>
    let code := itemCode ++ "." ++ toString i
    let inp := st.manualInputs.headD (false, "")
    let st :=
      { st with
        manualInputs := st.manualInputs.tail,
        scores := st.scores.set code ⟨some inp.1, some inp.2.trim⟩,
        trace := st.trace ++ [.manualPrompt code] }
    manualGradeLoop itemCode (i + 1) rest st

/-- `Grader._prompt_grade` (common/grader.py:253-307).  `if autogrades:`
is Python truthiness, so an *empty* list falls through to the manual
branch; a nonempty list of the wrong length raises before any award is
written (`raise` at common/grader.py:272 precedes the write loop), so
the error carries the unchanged state; `grades.synchronize()` runs at
the end of every non-raising path. -/
def promptGrade (env : Env) (item : RubricItem) (autogrades : Option AutoRes)
    (st : SessionState) : Except (String × SessionState) SessionState :=
  let manualBranch : SessionState :=
    if !env.autogradeOnly then
      manualGradeLoop item.code 1 item.subitems st
    else st
  match autogrades with
  | some .allPass =>
    let scores := (subitemCodesOf item.code item).foldl
      (fun sc c => sc.set c ⟨some true, some ""⟩) st.scores
    .ok { st with scores := scores, trace := st.trace ++ [.sync] }
  | some (.auto l) =>
    if l ≠ [] then
      if l.length ≠ item.subitems.length then
        .error ("Autogrades dont align with rubric item!", st)
      else
        let scores := (List.enumFrom 1 l).foldl
          (fun sc (p : Nat × (String × String)) =>
            sc.set (item.code ++ "." ++ toString p.1)
              ⟨some (p.2.1 == "y"), some p.2.2⟩) st.scores
        .ok { st with scores := scores, trace := st.trace ++ [.sync] }
    else
      .ok { manualBranch with trace := manualBranch.trace ++ [.sync] }
  | none =>
    .ok { manualBranch with trace := manualBranch.trace ++ [.sync] }

/-- `Grader._grade_item` (common/grader.py:137-205).  The skip check
comes first; without `grade_only` the not-yet-ran `has_ran` dependencies
are collected *once* and then each is graded in order with
`skip_if_graded=False` (the `for` loop at common/grader.py:167-168,
here a `foldlM`); the test wrapper runs under `_run_and_prompt`
(exceptions caught); without `test_only` and with no advance flag set,
`_prompt_grade` records the result; finally `next_item_flag` is
cleared.  `fuel` bounds the recursion depth (Python recurses
unboundedly; rubric dependency trees are finite). -/
def gradeItem (env : Env) (tests : String → TestOutcome) :
    Nat → Bool → RubricItem → SessionState →
    Except (String × SessionState) SessionState
  | 0, _, _, st => .ok st
  | fuel + 1, skipIfGraded, item, st =>
    if !env.testOnly && !env.regrade && skipIfGraded
        && allSubitemsGraded st.scores item.code item then
      .ok st
    else do
      let ags ←
        if !env.gradeOnly then do
          let deps := item.hasRan.filter
            (fun d => !(st.ranCodes.contains d.code))
          let st2 ← deps.foldlM
            (fun s d => gradeItem env tests fuel false d s) st
          Except.ok (runAndPrompt env tests item st2)
        else
          Except.ok ((none : Option AutoRes), st)
      let st3 ←
        if !env.testOnly && !ags.2.nextItemFlag && !ags.2.nextStudentFlag then
          promptGrade env item ags.1 ags.2
        else
          Except.ok ags.2
      Except.ok { st3 with nextItemFlag := false }

/-- Plain rubric item `Y1` with no dependencies. -/
def y1Item : RubricItem := RubricItem.mk "Y1" none [(1, "t")] [] []

/-- Item `Y2` with a `has_ran` dependency on `Y1`. -/
def y2Item : RubricItem := RubricItem.mk "Y2" none [(1, "t")] [y1Item] []

/-- Item `X` with `has_ran: [Y2, Y1]` — the diamond: `Y1` is also reached
through `Y2`. -/
def xItem : RubricItem := RubricItem.mk "X" none [(1, "t")] [y2Item, y1Item] []

/-- Item `A2` with the single dependency `has_ran: [Y1]`. -/
def a2Item : RubricItem := RubricItem.mk "A2" none [(1, "t")] [y1Item] []

/-- Default interactive grading flags (every mode flag off, single
submitter). -/
def defaultEnv : Env :=
  { testOnly := false, regrade := false, gradeOnly := false,
    autogradeOnly := false, singleSubmitter := true }

/-- Test suite in which every callback returns `True` (all subitems
awarded, no prompting needed). -/
def allPassTests : String → TestOutcome := fun _ => .allPass

/-- Fresh session state over given scores: nothing ran, no flags, no
queued operator input, empty trace. -/
def freshState (sc : Scores) : SessionState :=
  { scores := sc, ranCodes := [], nextItemFlag := false,
    nextStudentFlag := false, actions := [], manualInputs := [], trace := [] }

/-- All-ungraded scores for the diamond rubric. -/
def c3Scores : Scores :=
  [("X.1", SubGrade.ungraded), ("Y1.1", SubGrade.ungraded),
   ("Y2.1", SubGrade.ungraded)]

/-- A two-subitem item for the autograde-length claims. -/
def c9Item : RubricItem := RubricItem.mk "A1" none [(1, "a"), (2, "b")] [] []

/-- Test suite whose callback returns the *empty list*. -/
def emptyListTests : String → TestOutcome := fun _ => .auto []

/-- `autograde_only` flags (no interactive fallback). -/
def autogradeEnv : Env :=
  { testOnly := false, regrade := false, gradeOnly := false,
    autogradeOnly := true, singleSubmitter := true }

/-- Ungraded scores for `c9Item`. -/
def c9Scores : Scores :=
  [("A1.1", SubGrade.ungraded), ("A1.2", SubGrade.ungraded)]

-- ===================== THEOREMS =====================

theorem pyMax_eq_max (a b : ℚ) : pyMax a b = max a b := by
  unfold pyMax
  rcases le_total a b with h | h
  · rcases eq_or_lt_of_le h with rfl | hlt
    · simp
    · rw [if_neg (not_le_of_lt hlt), max_eq_right h]
  · rw [if_pos h, max_eq_left h]

theorem pyMin_eq_min (a b : ℚ) : pyMin a b = min a b := by
  unfold pyMin
  rcases le_total a b with h | h
  · rw [if_pos h, min_eq_left h]
  · rcases eq_or_lt_of_le h with rfl | hlt
    · simp
    · rw [if_neg (not_le_of_lt hlt), min_eq_right h]

theorem subitemStep_fst (scores : Scores) (itemCode : String) (n : Nat)
    (acc : ℚ × List String) (ie : Nat × (ℚ × String)) :
    (subitemStep scores itemCode n acc ie).1
      = acc.1 + (if optBoolTruthy
          (scores.get (itemCode ++ "." ++ toString ie.1)).award
        then ie.2.1 else 0) := rfl

theorem foldl_subitemStep_fst (scores : Scores) (itemCode : String) (n : Nat)
    (l : List (ℚ × String)) :
    ∀ (i : Nat) (t : ℚ) (cs : List String),
      ((List.enumFrom i l).foldl (subitemStep scores itemCode n) (t, cs)).1
        = t + awardedSumFrom scores itemCode i l := by
  induction l with
  | nil => intro i t cs; simp [awardedSumFrom]
  | cons hd tl ih =>
    intro i t cs
    simp only [List.enumFrom, List.foldl]
    rw [← Prod.mk.eta (p := subitemStep scores itemCode n (t, cs) (i, hd))]
    rw [ih (i + 1) _ _]
    rw [subitemStep_fst]
    simp [awardedSumFrom, add_assoc]

/-- Scoring a *deductive* item (`deduct_from = some d`, `d ≠ 0`, so that the
Python truthiness test `if rubric_item.deduct_from:` passes): the new
running total is `floor + d + Σ(awarded)` clamped to `[floor, floor + d]`
where `floor` is the running total before the item. -/
theorem processItem_deductive (scores : Scores) (itemCode : String)
    (item : RubricItem) (total : ℚ) (cs : List String) (d : ℚ)
    (hd : item.deduct_from = some d) (hd0 : d ≠ 0) :
    (processItem scores itemCode item total cs).1
      = max total (min (total + d)
          (total + d + awardedSum scores itemCode item)) := by
  have hT : optRatTruthy (some d) = true := by simp [optRatTruthy, hd0]
  unfold processItem
  simp only [hd, hT, Option.getD_some, if_true]
  rw [foldl_subitemStep_fst]
  rw [pyMax_eq_max, pyMin_eq_min, awardedSum]

/-- Scoring an item whose `deduct_from` is `None` **or zero** (Python
falsiness) takes the additive path: the subitem sum is added with no
clamp. -/
theorem processItem_additive (scores : Scores) (itemCode : String)
    (item : RubricItem) (total : ℚ) (cs : List String)
    (hd : optRatTruthy item.deduct_from = false) :
    (processItem scores itemCode item total cs).1
      = total + awardedSum scores itemCode item := by
  unfold processItem
  simp only [hd, Bool.false_eq_true, if_false]
  rw [foldl_subitemStep_fst, awardedSum]

/-- C1 counterexample.  The claim covers *every* item with `deduct_from = C
present`; for `C = 0` its formula predicts a contribution clamped into
`[floor, floor + 0]`, i.e. a new running total of `floor = 0`.  The code
(`if rubric_item.deduct_from:` — Python truthiness) treats `deduct_from
= 0` as additive and returns 5. -/
theorem C1_counterexample :
    zeroDeductItem.deduct_from = some 0
    ∧ (processItem zeroDeductScores "A1" zeroDeductItem 0 []).1 = 5
    ∧ (getSubmissionGrades nullGradingPolicy () zeroDeductScores
        zeroDeductRubric "abc" "ALL").pts = 5
    ∧ max (0:ℚ) (min ((0:ℚ) + 0)
        ((0:ℚ) + 0 + awardedSum zeroDeductScores "A1" zeroDeductItem)) = 0
    ∧ (5 : ℚ) ≠ 0 := by
  refine ⟨rfl, ?_, ?_, ?_, by norm_num⟩
  · norm_num +decide [processItem, subitemStep, zeroDeductItem, zeroDeductScores,
      Scores.get, optBoolTruthy, optRatTruthy, optStrTruthy, pyMax, pyMin,
      RubricItem.subitems, RubricItem.deduct_from, List.enumFrom, List.lookup]
  · norm_num +decide [getSubmissionGrades, walkItems, processItem, subitemStep,
      itemsSeq, allSubitemsGraded, subitemCodesOf, Scores.isGraded, Scores.get,
      optBoolTruthy, optRatTruthy, optStrTruthy, pyMax, pyMin, zeroDeductRubric,
      zeroDeductItem, zeroDeductScores, nullGradingPolicy,
      RubricItem.subitems, RubricItem.deduct_from, List.enumFrom, List.lookup]
  · norm_num +decide [awardedSum, awardedSumFrom, zeroDeductItem,
      zeroDeductScores, Scores.get, optBoolTruthy, RubricItem.subitems,
      List.lookup]

/-- C1 (amended).  For every submitter ledger and every deductive rubric
item — `deduct_from = some d` with `d ≠ 0`, since Python truthiness sends
a present-but-zero `deduct_from` down the additive path — the new running
total after the item equals `floor + d + Σ(awarded subitem points)`
clamped to `[floor, floor + d]`, where `floor` is the running total
before the item.  In particular, for item B1 (`deduct_from = 10`, one
subitem worth −3) awarding `false` contributes 10 and awarding `true`
contributes 7. -/
theorem C1_thm :
    (∀ (scores : Scores) (itemCode : String) (item : RubricItem)
        (total : ℚ) (cs : List String) (d : ℚ),
        item.deduct_from = some d → d ≠ 0 →
        (processItem scores itemCode item total cs).1
          = max total (min (total + d)
              (total + d + awardedSum scores itemCode item)))
    ∧ (getSubmissionGrades nullGradingPolicy () b1ScoresNoPenalty
        b1DemoRubric "abc" "ALL").pts = 10
    ∧ (getSubmissionGrades nullGradingPolicy () b1ScoresPenalty
        b1DemoRubric "abc" "ALL").pts = 7 := by
  refine ⟨processItem_deductive, ?_, ?_⟩
  · norm_num +decide [getSubmissionGrades, walkItems, processItem, subitemStep,
      itemsSeq, allSubitemsGraded, subitemCodesOf, Scores.isGraded, Scores.get,
      optBoolTruthy, optRatTruthy, optStrTruthy, pyMax, pyMin, b1DemoRubric,
      b1Item, b1ScoresNoPenalty, nullGradingPolicy,
      RubricItem.subitems, RubricItem.deduct_from, List.enumFrom, List.lookup]
  · norm_num +decide [getSubmissionGrades, walkItems, processItem, subitemStep,
      itemsSeq, allSubitemsGraded, subitemCodesOf, Scores.isGraded, Scores.get,
      optBoolTruthy, optRatTruthy, optStrTruthy, pyMax, pyMin, b1DemoRubric,
      b1Item, b1ScoresPenalty, nullGradingPolicy,
      RubricItem.subitems, RubricItem.deduct_from, List.enumFrom, List.lookup]

/-- Witness for `C1_thm`: its clamp formula applied to item B1 with the
penalty awarded, discharging `deduct_from = some 10` and `10 ≠ 0`. -/
theorem C1_witness :
    (processItem b1ScoresPenalty "B1" b1Item 0 []).1
      = max 0 (min ((0:ℚ) + 10)
          ((0:ℚ) + 10 + awardedSum b1ScoresPenalty "B1" b1Item)) :=
  C1_thm.1 b1ScoresPenalty "B1" b1Item 0 [] 10 rfl (by norm_num)

theorem walkItems_complete_iff (scores : Scores) (rc : String) :
    ∀ (items : List (String × RubricItem)) (t : ℚ) (cs : List String),
      (walkItems scores rc items t cs).1 = true
        ↔ ∀ p ∈ items, inScope rc p.1 = true →
            allSubitemsGraded scores p.1 p.2 = true := by
  intro items
  induction items with
  | nil => intro t cs; simp [walkItems]
  | cons hd tl ih =>
    intro t cs
    obtain ⟨ic, it⟩ := hd
    by_cases hin : inScope rc ic = true
    · have hsk : (rc != "ALL" && !(pyStartsWith ic rc)) = false := by
        simp only [inScope, Bool.or_eq_true, beq_iff_eq] at hin
        rcases hin with h | h
        · simp [bne, h]
        · simp [h]
      by_cases hg : allSubitemsGraded scores ic it = true
      · rw [walkItems, hsk]
        simp only [Bool.false_eq_true, if_false, hg, Bool.not_true,
          Bool.false_eq_true, if_false]
        rw [ih]
        constructor
        · intro h p hp hins
          rcases List.mem_cons.mp hp with rfl | hmem
          · exact hg
          · exact h p hmem hins
        · intro h p hp hins
          exact h p (List.mem_cons_of_mem _ hp) hins
      · have hg' : allSubitemsGraded scores ic it = false := by
          revert hg; cases allSubitemsGraded scores ic it <;> simp
        rw [walkItems, hsk]
        simp only [Bool.false_eq_true, if_false, hg', Bool.not_false,
          eq_self_iff_true, if_true]
        constructor
        · intro h; exact absurd h (by simp)
        · intro h
          exact absurd (h (ic, it) (List.mem_cons_self _ _) hin) hg
    · have hsk : (rc != "ALL" && !(pyStartsWith ic rc)) = true := by
        simp only [inScope, Bool.or_eq_true, beq_iff_eq, not_or,
          Bool.not_eq_true] at hin
        simp [bne, beq_eq_false_iff_ne, hin.1, hin.2]
      rw [walkItems, hsk]
      simp only [eq_self_iff_true, if_true]
      rw [ih]
      constructor
      · intro h p hp hins
        rcases List.mem_cons.mp hp with rfl | hmem
        · exact absurd hins hin
        · exact h p hmem hins
      · intro h p hp hins
        exact h p (List.mem_cons_of_mem _ hp) hins

/-- C2 counterexample.  Filter `"A"` (≠ "ALL") on a rubric whose single
additive item holds an awarded −3 subitem: the loop's raw, unadjusted
total is −3, but `_get_submission_grades` returns
`max(total_pts, 0) = 0` (common/grades.py:255) on every completed path,
so the returned score is *not* the raw, unadjusted total. -/
theorem C2_counterexample :
    (getSubmissionGrades nullGradingPolicy () negSubitemScores
        negSubitemRubric "abc" "A").complete = true
    ∧ (getSubmissionGrades nullGradingPolicy () negSubitemScores
        negSubitemRubric "abc" "A").pts = 0
    ∧ rawWalkTotal negSubitemScores negSubitemRubric "A" = -3
    ∧ ((0 : ℚ) ≠ -3) := by
  refine ⟨?_, ?_, ?_, by norm_num⟩
  · norm_num +decide [getSubmissionGrades, walkItems, processItem, subitemStep,
      itemsSeq, allSubitemsGraded, subitemCodesOf, Scores.isGraded, Scores.get,
      optBoolTruthy, optRatTruthy, optStrTruthy, pyMax, pyMin, pyStartsWith,
      negSubitemRubric, negSubitemItem, negSubitemScores, nullGradingPolicy,
      RubricItem.subitems, RubricItem.deduct_from, List.enumFrom, List.lookup]
  · norm_num +decide [getSubmissionGrades, walkItems, processItem, subitemStep,
      itemsSeq, allSubitemsGraded, subitemCodesOf, Scores.isGraded, Scores.get,
      optBoolTruthy, optRatTruthy, optStrTruthy, pyMax, pyMin, pyStartsWith,
      negSubitemRubric, negSubitemItem, negSubitemScores, nullGradingPolicy,
      RubricItem.subitems, RubricItem.deduct_from, List.enumFrom, List.lookup]
  · norm_num +decide [rawWalkTotal, getSubmissionGrades, walkItems, processItem,
      subitemStep, itemsSeq, allSubitemsGraded, subitemCodesOf, Scores.isGraded,
      Scores.get, optBoolTruthy, optRatTruthy, optStrTruthy, pyMax, pyMin,
      pyStartsWith, negSubitemRubric, negSubitemItem, negSubitemScores,
      RubricItem.subitems, RubricItem.deduct_from, List.enumFrom, List.lookup]

/-- C2 (amended).  For every policy, ledger and filter:
(1) if some in-scope subitem is ungraded, `_get_submission_grades`
returns `complete = false` and never invokes the policy chain;
(2) with filter `"ALL"` and everything in scope graded, the policy chain
is applied exactly once to the raw walked total (then floored at 0);
(3) with any other filter the policy chain is never invoked and a
completed submission's returned score is the raw walked total with no
policy applied but floored at 0 (`max(total_pts, 0)`,
common/grades.py:255). -/
theorem C2_thm {α : Type} (policy : ℚ → List String → α → ℚ × List String)
    (pd : α) (scores : Scores) (rubric : Rubric) (name rc : String) :
    ((∃ p ∈ itemsSeq rubric, inScope rc p.1 = true ∧
        allSubitemsGraded scores p.1 p.2 = false) →
      (getSubmissionGrades policy pd scores rubric name rc).complete = false ∧
      (getSubmissionGrades policy pd scores rubric name rc).policyCalls = 0)
    ∧ (rc = "ALL" →
        (∀ p ∈ itemsSeq rubric, inScope rc p.1 = true →
          allSubitemsGraded scores p.1 p.2 = true) →
        (getSubmissionGrades policy pd scores rubric name rc).policyCalls = 1 ∧
        (getSubmissionGrades policy pd scores rubric name rc).pts
          = max (policy (walkItems scores rc (itemsSeq rubric) 0 []).2.1
              (walkItems scores rc (itemsSeq rubric) 0 []).2.2 pd).1 0)
    ∧ (rc ≠ "ALL" →
        (getSubmissionGrades policy pd scores rubric name rc).policyCalls = 0 ∧
        ((getSubmissionGrades policy pd scores rubric name rc).complete = true →
          (getSubmissionGrades policy pd scores rubric name rc).pts
            = max (rawWalkTotal scores rubric rc) 0)) := by
  refine ⟨?_, ?_, ?_⟩
  · intro hex
    have hw : (walkItems scores rc (itemsSeq rubric) 0 []).1 = false := by
      rcases hex with ⟨p, hp, hins, hfail⟩
      cases hcase : (walkItems scores rc (itemsSeq rubric) 0 []).1
      · rfl
      · have := (walkItems_complete_iff scores rc (itemsSeq rubric) 0 []).mp
          hcase p hp hins
        rw [this] at hfail
        cases hfail
    unfold getSubmissionGrades
    simp [hw]
  · intro hall hcomp
    subst hall
    have hw : (walkItems scores "ALL" (itemsSeq rubric) 0 []).1 = true :=
      (walkItems_complete_iff scores "ALL" (itemsSeq rubric) 0 []).mpr hcomp
    unfold getSubmissionGrades
    simp [hw, pyMax_eq_max]
  · intro hne
    cases hw : (walkItems scores rc (itemsSeq rubric) 0 []).1
    · unfold getSubmissionGrades
      simp [hw]
    · unfold getSubmissionGrades
      simp [hw, hne, pyMax_eq_max, rawWalkTotal]

/-- Witness for `C2_thm`: concrete instantiations — an ungraded in-scope
subitem with filter "ALL" (part 1) and the non-"ALL" filter "A" (part 3). -/
theorem C2_witness :
    ((getSubmissionGrades nullGradingPolicy () negSubitemUngraded
        negSubitemRubric "abc" "ALL").complete = false
      ∧ (getSubmissionGrades nullGradingPolicy () negSubitemUngraded
          negSubitemRubric "abc" "ALL").policyCalls = 0)
    ∧ (getSubmissionGrades nullGradingPolicy () negSubitemScores
        negSubitemRubric "abc" "A").policyCalls = 0 :=
  ⟨(C2_thm nullGradingPolicy () negSubitemUngraded negSubitemRubric
      "abc" "ALL").1
      ⟨("A1", negSubitemItem),
        by simp [itemsSeq, negSubitemRubric],
        by simp [inScope],
        by simp +decide [allSubitemsGraded, subitemCodesOf, Scores.isGraded,
          Scores.get, negSubitemUngraded, negSubitemItem, SubGrade.ungraded,
          RubricItem.subitems, List.lookup]⟩,
    ((C2_thm nullGradingPolicy () negSubitemScores negSubitemRubric
      "abc" "A").2.2 (by simp)).1⟩

/-- C5 counterexample.  `GoodJobPolicy.get_points_and_comments` draws its
congratulatory phrase with `random.choice(GOOD_JOB_PHRASES)`
(borowski_common/grading_policies.py:48), so for a total ≥ 93 two calls
with the *same* `(total_points, comments, policy_data)` can return
different outputs — both "Good job" and "Great work" are possible draws
— and the same holds through `CompositeGradingPolicy`.  The policies are
therefore not free of nondeterminism. -/
theorem C5_counterexample :
    "Good job" ∈ GOOD_JOB_PHRASES
    ∧ "Great work" ∈ GOOD_JOB_PHRASES
    ∧ goodJobPolicy "Good job" 93 [] ⟨none, none⟩
        ≠ goodJobPolicy "Great work" 93 [] ⟨none, none⟩
    ∧ compositeGetPointsAndComments (borowskiChain "Good job") 93 []
        [("GoodJobPolicy", PolicyData.goodJob ⟨none, none⟩)]
      ≠ compositeGetPointsAndComments (borowskiChain "Great work") 93 []
        [("GoodJobPolicy", PolicyData.goodJob ⟨none, none⟩)] := by
  refine ⟨by simp [GOOD_JOB_PHRASES], by simp [GOOD_JOB_PHRASES], ?_, ?_⟩
  · norm_num +decide [goodJobPolicy]
  · norm_num +decide [compositeGetPointsAndComments, borowskiChain,
      goodJobPolicyFn, goodJobPolicy, latePolicyFn, plagiarismPolicyFn,
      customDeductionsPolicyFn, List.lookup, List.foldl]

/-- C5 (amended).  Every policy in the chain except `GoodJobPolicy`
computes its output purely from `(total_points, comments, policy_data)`;
`GoodJobPolicy` additionally depends on the phrase drawn by
`random.choice`.  Formally: whenever the `"GoodJobPolicy"` key is absent
from `policy_data` (so the random draw is never consulted), the
composite chain's output is independent of the drawn phrase — i.e. it is
a function of the input triple alone. -/
theorem C5_thm (phrase₁ phrase₂ : String) (t : ℚ) (cs : List String)
    (pd : List (String × PolicyData))
    (h : pd.lookup "GoodJobPolicy" = none) :
    compositeGetPointsAndComments (borowskiChain phrase₁) t cs pd
      = compositeGetPointsAndComments (borowskiChain phrase₂) t cs pd := by
  simp only [compositeGetPointsAndComments, borowskiChain, List.foldl, h]

/-- Witness for `C5_thm`: a late-only `policy_data` map (no
`"GoodJobPolicy"` key), two different phrases. -/
theorem C5_witness :
    compositeGetPointsAndComments (borowskiChain "Good job") 100 ["(A1: -3)"]
        [("LatePercentagePenaltyPolicy", PolicyData.late true)]
      = compositeGetPointsAndComments (borowskiChain "Awesome") 100 ["(A1: -3)"]
        [("LatePercentagePenaltyPolicy", PolicyData.late true)] :=
  C5_thm "Good job" "Awesome" 100 ["(A1: -3)"]
    [("LatePercentagePenaltyPolicy", PolicyData.late true)]
    (by simp +decide [List.lookup])

/-- C6 counterexample.  Dependency references are expanded against the
rubric dict *as built so far*, not against the finished rubric: in
`c6AllSrc` the first item's `"ALL"` reference expands to the empty list
(no item existed yet), although the loaded rubric holds two items; and a
literal item code referencing the *later* item B1 makes loading fail
with "Rubric item B1 not found." even though B1 exists in the document. -/
theorem C6_counterexample :
    loadRubric c6AllSrc = Except.ok c6AllExpected
    ∧ c6A1Item.hasRan = []
    ∧ (itemsSeq c6AllExpected).map Prod.fst = ["A1", "B1"]
    ∧ c6A1Item.hasRan.length ≠ (itemsSeq c6AllExpected).length
    ∧ loadRubric c6ForwardSrc = Except.error "Rubric item B1 not found." := by
  refine ⟨rfl, rfl, rfl, ?_, rfl⟩
  simp +decide [c6A1Item, c6AllExpected, itemsSeq, RubricItem.hasRan]

/-- C6 (amended).  `_create_dependencies_list` resolves each reference
against the rubric dict passed to it — during loading, the part of the
rubric already built: the sentinel `"ALL"` expands to every item of that
dict, an alphabetic key to every item of that table (error if the table
is absent from the dict), any other key to the single item found via its
first character (error if absent); and a reference list expands to the
concatenation of its keys' expansions. -/
theorem C6_thm :
    (∀ rub : Rubric, createDependenciesList rub ["ALL"]
        = Except.ok ((itemsSeq rub).map Prod.snd))
    ∧ (∀ (rub : Rubric) (key : String) (tbl : List (String × RubricItem)),
        key ≠ "ALL" → pyIsAlpha key = true → rub.lookup key = some tbl →
        createDependenciesList rub [key] = Except.ok (tbl.map Prod.snd))
    ∧ (∀ (rub : Rubric) (key : String),
        key ≠ "ALL" → pyIsAlpha key = true → rub.lookup key = none →
        createDependenciesList rub [key]
          = Except.error ("Rubric table " ++ key ++ " not found."))
    ∧ (∀ (rub : Rubric) (key : String) (tbl : List (String × RubricItem))
        (item : RubricItem),
        key ≠ "ALL" → pyIsAlpha key = false →
        rub.lookup (String.mk (key.data.take 1)) = some tbl →
        tbl.lookup key = some item →
        createDependenciesList rub [key] = Except.ok [item])
    ∧ (∀ (rub : Rubric) (key : String),
        key ≠ "ALL" → pyIsAlpha key = false →
        rub.lookup (String.mk (key.data.take 1)) = none →
        createDependenciesList rub [key]
          = Except.error ("Rubric item " ++ key ++ " not found."))
    ∧ (∀ (rub : Rubric) (key : String) (ks : List String)
        (l1 l2 : List RubricItem),
        createDependenciesList rub [key] = Except.ok l1 →
        createDependenciesList rub ks = Except.ok l2 →
        createDependenciesList rub (key :: ks) = Except.ok (l1 ++ l2)) := by
  refine ⟨?_, ?_, ?_, ?_, ?_, ?_⟩
  · intro rub
    simp [createDependenciesList, expandRef, Bind.bind, Except.bind]
  · intro rub key tbl hne halpha hlk
    simp [createDependenciesList, expandRef, hne, halpha, hlk, Bind.bind, Except.bind]
  · intro rub key hne halpha hlk
    simp [createDependenciesList, expandRef, hne, halpha, hlk, Bind.bind, Except.bind]
  · intro rub key tbl item hne halpha hlk1 hlk2
    simp [createDependenciesList, expandRef, hne, halpha, hlk1, hlk2,
      Bind.bind, Except.bind]
  · intro rub key hne halpha hlk
    simp [createDependenciesList, expandRef, hne, halpha, hlk, Bind.bind, Except.bind]
  · intro rub key ks l1 l2 h1 h2
    rw [createDependenciesList] at h1 ⊢
    cases hE : expandRef rub key with
    | error e =>
      rw [hE] at h1
      simp [Bind.bind, Except.bind] at h1
    | ok l =>
      rw [hE] at h1
      rw [createDependenciesList] at h1
      simp only [Bind.bind, Except.bind, Except.ok.injEq] at h1
      rw [h2]
      simp only [Bind.bind, Except.bind, Except.ok.injEq]
      rw [← h1]
      simp

/-- Witness for `C6_thm`: a table reference and an item reference resolved
against the loaded `c6AllExpected` rubric, and a two-key list. -/
theorem C6_witness :
    createDependenciesList c6AllExpected ["A"] = Except.ok [c6A1Item]
    ∧ createDependenciesList c6AllExpected ["B1"] = Except.ok [c6B1Item]
    ∧ createDependenciesList c6AllExpected ["A", "B1"]
        = Except.ok ([c6A1Item] ++ [c6B1Item]) :=
  ⟨C6_thm.2.1 c6AllExpected "A" [("A1", c6A1Item)] (by decide) (by decide) rfl,
   C6_thm.2.2.2.1 c6AllExpected "B1" [("B1", c6B1Item)] c6B1Item (by decide)
     (by decide) rfl rfl,
   C6_thm.2.2.2.2.2 c6AllExpected "A" ["B1"] [c6A1Item] [c6B1Item]
     (C6_thm.2.1 c6AllExpected "A" [("A1", c6A1Item)] (by decide) (by decide)
       rfl)
     (C6_thm.2.2.2.1 c6AllExpected "B1" [("B1", c6B1Item)] c6B1Item
       (by decide) (by decide) rfl rfl)⟩

/-- C8 counterexample.  `loadRubric` on a source whose point and
description arrays have lengths 2 and 1 *succeeds* and produces a rubric
item (with the subitems truncated by `zip` to length 1); no
`MalformedRubricError` — indeed no error at all — is raised. -/
theorem C8_counterexample :
    c8SrcItem.points_per_subitem.length = 2
    ∧ c8SrcItem.desc_per_subitem.length = 1
    ∧ loadRubric c8Src = Except.ok c8Expected := by
  exact ⟨rfl, rfl, rfl⟩

/-- C8 (amended).  Mismatched `points_per_subitem` / `desc_per_subitem`
arrays do **not** fail rubric loading: `_create_rubric_item` builds the
item with `list(zip(...))`, so the produced item has
`min(len(points), len(descs))` subitems. -/
theorem C8_thm (rub : Rubric) (src : ItemSrc) (it : RubricItem)
    (h : createRubricItem rub src = Except.ok it) :
    it.subitems = src.points_per_subitem.zip src.desc_per_subitem
    ∧ it.subitems.length
        = min src.points_per_subitem.length src.desc_per_subitem.length := by
  unfold createRubricItem at h
  cases h1 : createDependenciesList rub src.has_ran with
  | error e => rw [h1] at h; simp [Bind.bind, Except.bind] at h
  | ok l1 =>
    cases h2 : createDependenciesList rub src.is_graded with
    | error e => rw [h1, h2] at h; simp [Bind.bind, Except.bind] at h
    | ok l2 =>
      rw [h1, h2] at h
      simp only [Bind.bind, Except.bind, Except.ok.injEq] at h
      subst h
      exact ⟨rfl, List.length_zip _ _⟩

/-- Witness for `C8_thm`: the mismatched-length source item, loaded
against the empty rubric. -/
theorem C8_witness :
    (RubricItem.mk "A1" none [((1 : ℚ), "a")] [] []).subitems
        = c8SrcItem.points_per_subitem.zip c8SrcItem.desc_per_subitem
    ∧ (RubricItem.mk "A1" none [((1 : ℚ), "a")] [] []).subitems.length
        = min c8SrcItem.points_per_subitem.length
            c8SrcItem.desc_per_subitem.length :=
  C8_thm [] c8SrcItem (RubricItem.mk "A1" none [((1 : ℚ), "a")] [] []) rfl

theorem checkSubitemCodes_error_spec :
    ∀ (codes seen : List String) (m : String),
      checkSubitemCodes codes seen = Except.error m →
      ∃ c, m = "Rubric subitem " ++ c ++ " defined twice!"
        ∧ c ∈ codes ∧ (seen.contains c = true ∨ 2 ≤ codes.count c) := by
  intro codes
  induction codes with
  | nil => intro seen m h; simp [checkSubitemCodes] at h
  | cons c rest ih =>
    intro seen m h
    rw [checkSubitemCodes] at h
    by_cases hc : seen.contains c = true
    · rw [if_pos hc] at h
      refine ⟨c, ?_, List.mem_cons_self _ _, Or.inl hc⟩
      exact ((Except.error.injEq _ _).mp h).symm
    · rw [if_neg hc] at h
      obtain ⟨d, hd1, hd2, hd3⟩ := ih (c :: seen) m h
      refine ⟨d, hd1, List.mem_cons_of_mem _ hd2, ?_⟩
      rcases hd3 with hseen | hcount
      · rw [List.contains_cons] at hseen
        rcases Bool.or_eq_true_iff.mp hseen with hdc | hdseen
        · have hdceq : d = c := eq_of_beq hdc
          subst hdceq
          have hpos : 0 < rest.count d := List.count_pos_iff.mpr hd2
          refine Or.inr ?_
          rw [List.count_cons_self]
          omega
        · exact Or.inl hdseen
      · refine Or.inr ?_
        rw [List.count_cons]
        omega

theorem checkSubitemCodes_error_exists :
    ∀ (codes seen : List String),
      (¬ codes.Nodup ∨ ∃ x ∈ codes, seen.contains x = true) →
      ∃ m, checkSubitemCodes codes seen = Except.error m := by
  intro codes
  induction codes with
  | nil =>
    intro seen h
    rcases h with h | ⟨x, hx, _⟩
    · exact absurd List.nodup_nil h
    · exact absurd hx (List.not_mem_nil x)
  | cons c rest ih =>
    intro seen h
    rw [checkSubitemCodes]
    by_cases hc : seen.contains c = true
    · exact ⟨_, by rw [if_pos hc]⟩
    · rw [if_neg hc]
      apply ih
      rcases h with hnd | ⟨x, hx, hxs⟩
      · rw [List.nodup_cons] at hnd
        push_neg at hnd
        by_cases hcr : c ∈ rest
        · exact Or.inr ⟨c, hcr, by simp [List.contains_cons]⟩
        · exact Or.inl (hnd hcr)
      · rcases List.mem_cons.mp hx with rfl | hxr
        · exact absurd hxs hc
        · refine Or.inr ⟨x, hxr, ?_⟩
          rw [List.contains_cons, hxs]
          simp

/-- C7 counterexample.  `dupRubric` defines subitem code `B1.1` twice,
yet constructing the ledger with *no existing grades file* succeeds and
a grading session can start: `_load_grades` returns `{}` before ever
calling `_get_defined_rubric_subitems` (common/grades.py:53-55), so the
duplicate check never runs. -/
theorem C7_counterexample :
    gradesInit none dupRubric "abc"
        = Except.ok { grades := c7ExpectedDict, writes := [c7ExpectedDict] }
    ∧ ¬ (subitemCodesSorted dupRubric).Nodup := by
  constructor
  · rfl
  · decide

/-- C7 (amended).  The duplicate-subitem-code check runs only while
loading an *existing* grades file: whenever the persisted file is
present (any stored dict, even empty) and the rubric's subitem-code
traversal has a duplicate, `Grades.__init__` aborts with the
`sys.exit` message naming a code that occurs at least twice.  (With no
grades file the duplicate goes undetected — see the counterexample.) -/
theorem C7_thm (r : Rubric) (g : GradesDict) (name : String)
    (hdup : ¬ (subitemCodesSorted r).Nodup) :
    ∃ m c, gradesInit (some g) r name = Except.error m
      ∧ m = "Rubric subitem " ++ c ++ " defined twice!"
      ∧ 2 ≤ (subitemCodesSorted r).count c := by
  obtain ⟨m, hm⟩ :=
    checkSubitemCodes_error_exists (subitemCodesSorted r) [] (Or.inl hdup)
  obtain ⟨c, hc1, _, hc3⟩ := checkSubitemCodes_error_spec _ _ _ hm
  have hcount : 2 ≤ (subitemCodesSorted r).count c := by
    rcases hc3 with hseen | h2
    · simp [List.contains] at hseen
    · exact h2
  refine ⟨m, c, ?_, hc1, hcount⟩
  unfold gradesInit loadGrades getDefinedRubricSubitems
  rw [hm]
  simp [Bind.bind, Except.bind, Except.map]

/-- Witness for `C7_thm`: the duplicate rubric with an *empty but
existing* grades file fails with the duplicate-code message. -/
theorem C7_witness :
    ∃ m c, gradesInit (some []) dupRubric "abc" = Except.error m
      ∧ m = "Rubric subitem " ++ c ++ " defined twice!"
      ∧ 2 ≤ (subitemCodesSorted dupRubric).count c :=
  C7_thm dupRubric [] "abc" (by decide)

/-- C10.  Constructing the ledger always rewrites the persisted grades
file exactly once, immediately, with the reconciled dict — even when no
grading action occurs — and a truthy submitter not present in the
stored dict gets a fresh all-ungraded entry (with no `grading_policy`
key). -/
theorem C10_thm (f : Option GradesDict) (r : Rubric) (name : String)
    (res : GradesInitResult) (h : gradesInit f r name = Except.ok res) :
    res.writes = [res.grades]
    ∧ (f = none → name ≠ "" →
        res.grades.lookup name
          = some { scores := allUngradedScores r, gradingPolicy := none }) := by
  unfold gradesInit at h
  cases hl : loadGrades f r with
  | error e =>
    rw [hl] at h
    simp [Bind.bind, Except.bind] at h
  | ok g =>
    rw [hl] at h
    simp only [Bind.bind, Except.bind, Except.ok.injEq] at h
    subst h
    constructor
    · rfl
    · intro hf hname
      subst hf
      have hg : g = [] := by
        have : Except.ok (ε := String) ([] : GradesDict) = Except.ok g := by
          rw [← hl]; rfl
        exact ((Except.ok.injEq _ _).mp this).symm
      subst hg
      rw [if_pos (by simp [hname, List.contains, List.elem])]
      simp [List.lookup]

/-- Witness for `C10_thm`: constructing the ledger for fresh submitter
`abc` on the B1 rubric with no grades file writes exactly once and
creates the all-ungraded entry. -/
theorem C10_witness :
    List.lookup "abc"
        [("abc", (⟨[("B1.1", SubGrade.ungraded)], none⟩ : StoredSubmission))]
      = some ⟨allUngradedScores b1DemoRubric, none⟩ :=
  (C10_thm none b1DemoRubric "abc"
      ⟨[("abc", ⟨[("B1.1", SubGrade.ungraded)], none⟩)],
        [[("abc", ⟨[("B1.1", SubGrade.ungraded)], none⟩)]]⟩
      rfl).2 rfl (by decide)

/-- C4.  If every subitem of an item is already graded and neither
`test_only` nor `regrade` is active, `_grade_item` with the skip check
enabled returns immediately: no test runs, no prompt appears, no
synchronize happens, the ledger — the whole session state — is
unchanged.  Grading an already-graded item again is a no-op. -/
theorem C4_thm (env : Env) (tests : String → TestOutcome) (fuel : Nat)
    (item : RubricItem) (st : SessionState)
    (ht : env.testOnly = false) (hr : env.regrade = false)
    (hg : allSubitemsGraded st.scores item.code item = true) :
    gradeItem env tests fuel true item st = Except.ok st := by
  cases fuel with
  | zero => rfl
  | succ n =>
    rw [gradeItem]
    simp [ht, hr, hg]

/-- Witness for `C4_thm`: re-grading the fully graded two-subitem item
leaves the fresh state untouched. -/
theorem C4_witness :
    gradeItem defaultEnv allPassTests 3 true c9Item
        (freshState [("A1.1", ⟨some true, some ""⟩),
          ("A1.2", ⟨some false, some "x"⟩)])
      = Except.ok (freshState [("A1.1", ⟨some true, some ""⟩),
          ("A1.2", ⟨some false, some "x"⟩)]) :=
  C4_thm defaultEnv allPassTests 3 c9Item
    (freshState [("A1.1", ⟨some true, some ""⟩),
      ("A1.2", ⟨some false, some "x"⟩)]) rfl rfl (by decide)

/-- C3 counterexample.  In the diamond `X has_ran [Y2, Y1]`,
`Y2 has_ran [Y1]`, grading `X` executes `Y1`'s test *twice* in one
session: `_grade_item` filters the not-yet-ran dependency list once,
before any of them runs (common/grader.py:160-164), so `Y1` — already
executed transitively under `Y2` — is run again when its turn in the
pre-computed list comes.  "Exactly once per session" fails. -/
theorem C3_counterexample :
    xItem.hasRan = [y2Item, y1Item]
    ∧ y2Item.hasRan = [y1Item]
    ∧ (gradeItem defaultEnv allPassTests 10 true xItem
          (freshState c3Scores)).toOption.map
        (fun st => st.trace.count (Event.testRun "Y1")) = some 2
    ∧ (2 : Nat) ≠ 1 :=
  ⟨rfl, rfl, by decide, by decide⟩

/-- C3 (amended).  For an item `A2` with `has_ran: [Y1]`: whatever award
`Y1` already carries from a previous run, grading `A2` executes `Y1`'s
test first and then `A2`'s, once each — the skip-on-already-graded check
is bypassed for the dependency; and if `Y1`'s test already executed in
this session (it is in `ran_rubric_item_codes` when the dependency list
is computed), it is not run again.  (A dependency that executes
*transitively while the pre-computed list is being processed* is run
again — see the counterexample.) -/
theorem C3_thm :
    (∀ aw : Bool,
      (gradeItem defaultEnv allPassTests 5 true a2Item
          (freshState [("A2.1", SubGrade.ungraded),
            ("Y1.1", ⟨some aw, some "old"⟩)])).toOption.map
        (fun st => st.trace.filter (fun e =>
          match e with | Event.testRun _ => true | _ => false))
        = some [Event.testRun "Y1", Event.testRun "A2"])
    ∧ (∀ aw : Bool,
      (gradeItem defaultEnv allPassTests 5 true a2Item
          { freshState [("A2.1", SubGrade.ungraded),
              ("Y1.1", ⟨some aw, some "old"⟩)] with
            ranCodes := ["Y1"] }).toOption.map
        (fun st => st.trace.filter (fun e =>
          match e with | Event.testRun _ => true | _ => false))
        = some [Event.testRun "A2"]) :=
  ⟨by decide, by decide⟩

/-- C9 counterexample.  An *empty-list* autograde result for a
two-subitem item is a list whose length (0) differs from the subitem
count (2), yet recording it raises no error: `if autogrades:` at
common/grader.py:263 is falsy on `[]`, so the length check is never
reached and the session falls through to manual grading (a no-op under
`autograde_only`), leaving the ledger unchanged and succeeding. -/
theorem C9_counterexample :
    ([] : List (String × String)).length ≠ c9Item.subitems.length
    ∧ (gradeItem autogradeEnv emptyListTests 3 true c9Item
          (freshState c9Scores)).toOption.map (fun st => st.scores)
        = some c9Scores
    ∧ (gradeItem autogradeEnv emptyListTests 3 true c9Item
          (freshState c9Scores)).toOption ≠ none :=
  ⟨by decide, by decide, by decide⟩

/-- C9 (amended).  For every rubric item and every *nonempty* autograde
list whose length differs from the item's subitem count,
`_prompt_grade` raises the fatal internal-consistency error before any
award or comment is written and before any synchronize: the error
carries the session state unchanged.  (An empty list is falsy and is
treated as "no autograde result" instead.) -/
theorem C9_thm (env : Env) (item : RubricItem) (l : List (String × String))
    (st : SessionState) (hne : l ≠ [])
    (hlen : l.length ≠ item.subitems.length) :
    promptGrade env item (some (AutoRes.auto l)) st
      = Except.error ("Autogrades dont align with rubric item!", st) := by
  simp [promptGrade, hne, hlen]

/-- Witness for `C9_thm`: a one-entry autograde list against the
two-subitem item. -/
theorem C9_witness :
    promptGrade autogradeEnv c9Item (some (AutoRes.auto [("y", "")]))
        (freshState c9Scores)
      = Except.error ("Autogrades dont align with rubric item!",
          freshState c9Scores) :=
  C9_thm autogradeEnv c9Item [("y", "")] (freshState c9Scores)
    (by decide) (by decide)

end Pygrader
